import Mathlib

/-!
Verification of the SOW extraction pipeline
(`sow_extractor/extractors/table_extractor.py`).

The Python source is shallowly embedded below.  External capabilities are
modelled by explicit parameters:
  * the PDF library (`pdfplumber`) is modelled by a `Page` record exposing
    the three page operations the source calls, each returning
    `Except Unit _` because each call may raise;
  * the JSON library (`json.loads`) is modelled by a parameter
    `String → Option (List _)`; `none` covers both a parse failure and a
    parse result that is not an array of objects (either way the source
    raises inside the `try` block and the handler returns `[]`);
  * the completion client (`openai`) is modelled by a parameter
    `String → Except Unit String` from prompt to completion text.
Python truthiness on strings is modelled by comparison with `""` (a page
whose `extract_text()` returns `None` is modelled as returning `""`, which
the source treats identically).  The Python string primitives the source
uses (`lower`, `strip`, `split`, `startswith`, slicing, `in`) are
reimplemented on `List Char` so that every definition evaluates by kernel
reduction; each helper states which Python primitive it models.
-/

namespace SowExtractor

/-- Python `s.lower()` (ASCII reading, which is all the source needs). -/
def py_lower (s : String) : String := ⟨s.data.map Char.toLower⟩

/-- Python `s.strip()`: drop whitespace from both ends. -/
def py_strip (s : String) : String :=
  ⟨((s.data.dropWhile Char.isWhitespace).reverse.dropWhile Char.isWhitespace).reverse⟩

/-- Python `s.startswith(pre)`. -/
def py_starts_with (s pre : String) : Bool := pre.data.isPrefixOf s.data

/-- Python slicing `s[n:]`. -/
def py_drop (s : String) (n : Nat) : String := ⟨s.data.drop n⟩

/-- Python `len(s)` (character count). -/
def py_len (s : String) : Nat := s.data.length

/-- Python substring membership `pat in hay` on lists of characters:
true iff `needle` occurs contiguously inside the list. -/
def chars_contain (needle : List Char) : List Char → Bool
  | [] => needle.isEmpty
  | c :: rest => needle.isPrefixOf (c :: rest) || chars_contain needle rest

/-- Python `pat in hay` for strings. -/
def str_contains (hay pat : String) : Bool :=
  chars_contain pat.data hay.data

/-- Helper for Python `s.split()`: the maximal nonempty runs of
non-whitespace characters, accumulating the current word reversed. -/
def split_ws_aux (cur : List Char) : List Char → List (List Char)
  | [] => if cur.isEmpty then [] else [cur.reverse]
  | c :: rest =>
      if c.isWhitespace then
        if cur.isEmpty then split_ws_aux [] rest
        else cur.reverse :: split_ws_aux [] rest
      else split_ws_aux (c :: cur) rest

/-- Python `len(s.split())`: number of whitespace-separated tokens. -/
def whitespace_token_count (s : String) : Nat :=
  (split_ws_aux [] s.data).length

/-- Helper for Python `s.split(sep)` with a single-character separator:
every separator ends a chunk, empty chunks are kept. -/
def split_char_aux (sep : Char) (cur : List Char) : List Char → List (List Char)
  | [] => [cur.reverse]
  | c :: rest =>
      if c = sep then cur.reverse :: split_char_aux sep [] rest
      else split_char_aux sep (c :: cur) rest

/-- Python `s.split(c)` for a one-character separator. -/
def py_split_char (sep : Char) (s : String) : List String :=
  (split_char_aux sep [] s.data).map (fun cs => ⟨cs⟩)

/-- The characters before the first occurrence of `sep` (everything when
`sep` does not occur): the slice Python `s.split(sep)[1]` denotes once the
leading separator of a string starting with `sep` has been removed. -/
def take_until_seq (sep : List Char) : List Char → List Char
  | [] => []
  | c :: rest => if sep.isPrefixOf (c :: rest) then [] else c :: take_until_seq sep rest

/-- Python `sep.join(parts)`. -/
def join_sep (sep : String) : List String → String
  | [] => ""
  | [x] => x
  | x :: xs => x ++ sep ++ join_sep sep xs

/-- Concatenation of a list of strings (Python `+=` accumulation). -/
def str_concat (parts : List String) : String :=
  parts.foldl (fun a b => a ++ b) ""

/-- The source float `1.0` (block-call confidence). -/
def conf_table : ℚ := 1

/-- The source float `0.8` (text-pool-call confidence), as the exact
rational 4/5. -/
def conf_text : ℚ := Rat.mk' 4 5 (by norm_num) (by norm_num)

/-- The source float `0.95` (`processing_confidence`), as the exact
rational 19/20. -/
def conf_processing : ℚ := Rat.mk' 19 20 (by norm_num) (by norm_num)

/-- A JSON string-or-null value, the shape the prompt requests for each
field of an extracted object. -/
inductive JStr where
  | null
  | str (s : String)
deriving DecidableEq

/-- One parsed milestone object from a completion response.  A field is
`none` when the key is absent from the object, `some .null` when the key is
present with JSON `null`, and `some (.str s)` when present with a string. -/
structure RawMilestone where
  name : Option JStr
  description : Option JStr
  due_date : Option JStr
  payment_amount : Option JStr
deriving DecidableEq

/-- One parsed deliverable object from a completion response. -/
structure Deliverable where
  name : Option JStr
  description : Option JStr
  delivery_date : Option JStr
  related_milestone : Option JStr
deriving DecidableEq

/-- A value of the `page` / `table_index` provenance fields: the source
stores either an integer or a literal marker string there. -/
inductive SourceRef where
  | idx (n : Nat)
  | tag (s : String)
deriving DecidableEq

/-- The `source_table` provenance dict attached to every milestone by
`_process_milestone_content`. -/
structure SourceTable where
  page : SourceRef
  table_index : SourceRef
  confidence : ℚ
deriving DecidableEq

/-- A milestone object after provenance tagging. -/
structure TaggedMilestone where
  data : RawMilestone
  source_table : SourceTable
deriving DecidableEq

/-- A table cell as returned by the PDF library (possibly `None`). -/
abbrev Cell := Option String

/-- A table grid: rows of cells. -/
abbrev Table := List (List Cell)

/-- The contract of one PDF page.  `extractText` models
`page.extract_text()`, `extractTables` models `page.extract_tables()`, and
`extractTextRaw` models `page.extract_text(layout=False)`; each is
`Except Unit _` because the library call may raise. -/
structure Page where
  extractText : Except Unit String
  extractTables : Except Unit (List Table)
  extractTextRaw : Except Unit String

/-- A document: the ordered pages of an opened PDF. -/
abbrev Document := List Page

/-- One entry of `tables_data` as built by `_extract_tables_from_pdf`:
`data` is `some grid` for a real table and `none` for the two text-backed
kinds; `btype` models the optional `type` key (`none`, `some "text_table"`
or `some "fallback_text"`). -/
structure TableBlock where
  page : Nat
  table_index : Nat
  data : Option Table
  text_content : String
  btype : Option String
deriving DecidableEq

/-- The `metadata` dict of the result envelope. -/
structure ExtractionMetadata where
  processing_confidence : ℚ
  tables_found : Nat
  milestone_tables_identified : Nat
  markdown_saved : Bool
deriving DecidableEq

/-- The result envelope returned by `extract_from_pdf`. -/
structure ExtractionResult where
  milestones : List TaggedMilestone
  deliverables : List Deliverable
  metadata : ExtractionMetadata
deriving DecidableEq

instance {ε α : Type} [DecidableEq ε] [DecidableEq α] : DecidableEq (Except ε α) := fun a b =>
  match a, b with
  | .ok x, .ok y => if h : x = y then isTrue (by rw [h]) else isFalse (by simp [h])
  | .error x, .error y => if h : x = y then isTrue (by rw [h]) else isFalse (by simp [h])
  | .ok _, .error _ => isFalse (by simp)
  | .error _, .ok _ => isFalse (by simp)

/-- The fixed indicator vocabulary of `_looks_like_table_text`. -/
def table_indicators : List String :=
  ["milestone", "phase", "payment", "deliverable",
   "amount", "date", "percentage", "$", "%"]

/-- The per-line test of `_looks_like_table_text`: lowercase and strip the
line; it is table-like iff it has at least 3 whitespace-separated tokens and
contains at least one indicator as a substring.  (The source binds the
lowered stripped line to `line_lower` and reuses it for both tests.) -/
def is_table_like_line (line : String) : Bool :=
  decide (3 ≤ whitespace_token_count (py_strip (py_lower line)))
    && table_indicators.any (fun ind => str_contains (py_strip (py_lower line)) ind)

/-- `_looks_like_table_text`: at least 2 table-like lines. -/
def looks_like_table_text (text : String) : Bool :=
  decide (2 ≤ ((py_split_char '\n' text).countP is_table_like_line))

/-- The cell cleaning of `_table_to_text`:
`cell.strip() if cell else ""` (a `None` or empty cell becomes `""`). -/
def clean_cell (cell : Cell) : String :=
  py_strip (cell.getD "")

/-- `_table_to_text`: rows joined by `" | "` after dropping empty rows,
lines joined by newlines. -/
def table_to_text (table : Table) : String :=
  if table.isEmpty then ""
  else
    join_sep "\n"
      ((table.filter (fun row => ¬ row.isEmpty)).map
        (fun row => join_sep " | " (row.map clean_cell)))

/-- The per-page fallback of `_extract_tables_from_pdf`: when the main
per-page body raises, the handler calls `page.extract_text()` and, if that
yields text, records one `fallback_text` block; if even that raises (the
page operations are deterministic, so the retry fails the same way the
first attempt did), the page is skipped. -/
def fallback_text_block (page_num : Nat) (pg : Page) : List TableBlock :=
  match pg.extractText with
  | .ok text =>
      if text ≠ "" then
        [{ page := page_num, table_index := 0, data := none,
           text_content := text, btype := some "fallback_text" }]
      else []
  | .error _ => []

/-- The per-page body of `_extract_tables_from_pdf`: extract tables and
keep every grid with more than one row (`if table and len(table) > 1`);
when the returned table list is empty, extract the page text and emit a
single `text_table` block if the text looks table-like; any raise from
these page operations is handled by the text-only fallback. -/
def process_page (page_num : Nat) (pg : Page) : List TableBlock :=
  match pg.extractTables with
  | .ok tables =>
      if tables.isEmpty then
        match pg.extractText with
        | .ok text =>
            if text ≠ "" ∧ looks_like_table_text text then
              [{ page := page_num, table_index := 0, data := none,
                 text_content := text, btype := some "text_table" }]
            else []
        | .error _ => fallback_text_block page_num pg
      else
        tables.enum.filterMap (fun p =>
          if 1 < p.2.length then
            some { page := page_num, table_index := p.1, data := some p.2,
                   text_content := table_to_text p.2, btype := none }
          else none)
  | .error _ => fallback_text_block page_num pg

/-- `_extract_tables_from_pdf`: all blocks of all pages, in page order. -/
def extract_tables_from_pdf (doc : Document) : List TableBlock :=
  (doc.enum.map (fun p => process_page p.1 p.2)).flatten

/-- The keyword vocabulary of `_identify_milestone_tables`. -/
def milestone_keywords : List String :=
  ["milestone", "phase", "payment", "due date", "amount",
   "percentage", "description", "duration"]

/-- The keyword count of `_identify_milestone_tables`: how many vocabulary
entries occur in the lowercased text. -/
def keyword_hits (text_content : String) : Nat :=
  milestone_keywords.countP (fun keyword => str_contains (py_lower text_content) keyword)

/-- `_identify_milestone_tables`: keep the blocks with at least 3 keyword
hits. -/
def identify_milestone_tables (tables_data : List TableBlock) : List TableBlock :=
  tables_data.filter (fun table_data => decide (3 ≤ keyword_hits table_data.text_content))

/-- The broader keyword vocabulary of `_extract_milestone_text`. -/
def text_milestone_keywords : List String :=
  ["milestone", "phase", "task", "deliverable", "schedule",
   "timeline", "completion", "due", "deadline", "payment"]

/-- The per-page contribution of `_extract_milestone_text`: pages whose
text contains any broad keyword contribute a labelled section; when
`extract_text()` raises, the handler retries with `layout=False` and uses a
`(Raw)` label; when that raises too, the page contributes nothing. -/
def page_milestone_text (page_num : Nat) (pg : Page) : String :=
  match pg.extractText with
  | .ok text =>
      if text ≠ "" ∧ text_milestone_keywords.any (fun kw => str_contains (py_lower text) kw) then
        "=== Page " ++ toString (page_num + 1) ++ " ===\n" ++ text ++ "\n\n"
      else ""
  | .error _ =>
      match pg.extractTextRaw with
      | .ok raw_text =>
          if raw_text ≠ "" ∧ text_milestone_keywords.any (fun kw => str_contains (py_lower raw_text) kw) then
            "=== Page " ++ toString (page_num + 1) ++ " (Raw) ===\n" ++ raw_text ++ "\n\n"
          else ""
      | .error _ => ""

/-- `_extract_milestone_text`: the concatenated page-text pool. -/
def extract_milestone_text (doc : Document) : String :=
  str_concat (doc.enum.map (fun p => page_milestone_text p.1 p.2))

/-- The prompt template of `_process_milestone_content` (a Python
f-string; `\x7b\x7b` renders as a literal brace). -/
def milestone_prompt (content_text : String) : String :=
  "\n        Analyze the following content and extract ALL milestone information regardless of format. Return ONLY a valid JSON array.\n\n        Content:\n        "
  ++ content_text ++
  "\n\n        Extract every milestone, phase, task, or deliverable item you find. For each item, create a JSON object:\n        \x7b\n            \"name\": \"milestone/phase/task name\",\n            \"description\": \"description or title\", \n            \"due_date\": \"any date found or null\",\n            \"payment_amount\": \"any payment amount found or null\"\n        \x7d\n\n        Instructions:\n        - Look for ANY format: tables, bullet points, numbered lists, headers\n        - Extract ALL items that represent work phases, milestones, or tasks\n        - Include payment amounts where available\n        - Use EXACT values from the content\n        - If information is missing, use null\n        - Return ONLY the JSON array, no other text\n        "

/-- The response cleaning shared by `_process_milestone_content` and
`_extract_deliverables_from_text`: strip the completion text; when it
starts with a fenced-code delimiter, take the slice between the first two
delimiters and drop a leading `json` tag.  The source writes the middle
slice as element 1 of a split on the delimiter; because the string starts
with the delimiter, that element is exactly the characters after position
3 and before the next delimiter occurrence (whole remainder when none). -/
def clean_completion_text (raw : String) : String :=
  let result_text := py_strip raw
  if py_starts_with result_text "```" then
    let inner : String := ⟨take_until_seq "```".data (result_text.data.drop 3)⟩
    if py_starts_with inner "json" then py_drop inner 4 else inner
  else result_text

/-- The provenance dict `_process_milestone_content` attaches: block calls
get the page and table index of the block with confidence `1.0`; the
page-text-pool call gets the literal markers with confidence `0.8`.
(The source reads the block fields with a default of `"unknown"`, but
every block is constructed with both keys present, so the default is
dead.) -/
def tag_provenance (source_data : Option TableBlock) : SourceTable :=
  match source_data with
  | some sd => { page := .idx sd.page, table_index := .idx sd.table_index,
                 confidence := conf_table }
  | none => { page := .tag "text_content", table_index := .tag "text",
              confidence := conf_text }

/-- `_process_milestone_content`, instrumented: besides the milestone list
it returns the list of completion calls it issued, each recorded as the
`source_data` argument paired with the content sent.  Empty content returns
without calling; a raise from the completion client, a JSON parse failure
or a parse result that is not an array of objects is caught and yields
`[]`. -/
def process_milestone_content
    (json_loads : String → Option (List RawMilestone))
    (complete : String → Except Unit String)
    (content_text : String) (source_data : Option TableBlock) :
    List TaggedMilestone × List (Option TableBlock × String) :=
  if content_text = "" then ([], [])
  else
    let calls := [(source_data, content_text)]
    match complete (milestone_prompt content_text) with
    | .error _ => ([], calls)
    | .ok response =>
        match json_loads (clean_completion_text response) with
        | none => ([], calls)
        | some milestones =>
            (milestones.map (fun m => { data := m, source_table := tag_provenance source_data }),
             calls)

/-- The block pass of `_extract_milestones_from_all_sources`: one call per
milestone table, results concatenated in block order.  (The per-block
`try` in the source is dead: `_process_milestone_content` already catches
every exception internally.) -/
def block_pass_milestones
    (json_loads : String → Option (List RawMilestone))
    (complete : String → Except Unit String)
    (milestone_tables : List TableBlock) : List TaggedMilestone :=
  (milestone_tables.map (fun table_data =>
    (process_milestone_content json_loads complete table_data.text_content (some table_data)).1)).flatten

/-- The completion calls issued by the block pass, in order. -/
def block_pass_calls
    (json_loads : String → Option (List RawMilestone))
    (complete : String → Except Unit String)
    (milestone_tables : List TableBlock) : List (Option TableBlock × String) :=
  (milestone_tables.map (fun table_data =>
    (process_milestone_content json_loads complete table_data.text_content (some table_data)).2)).flatten

/-- The deduplication key of `_extract_milestones_from_all_sources`:
the pair of the `name` and `due_date` entries read with an empty-string
default — an absent key defaults to `""`, a present key contributes its
value (possibly JSON null) unchanged. -/
def mkey (m : TaggedMilestone) : JStr × JStr :=
  (m.data.name.getD (JStr.str ""), m.data.due_date.getD (JStr.str ""))

/-- The dedup loop of `_extract_milestones_from_all_sources`: walk the
list, keep an entry iff its key is not in `seen`, adding kept keys to
`seen`. -/
def dedup_aux (seen : List (JStr × JStr)) : List TaggedMilestone → List TaggedMilestone
  | [] => []
  | m :: rest =>
      if mkey m ∈ seen then dedup_aux seen rest
      else m :: dedup_aux (mkey m :: seen) rest

/-- The whole dedup step, starting from an empty `seen` set. -/
def dedup_milestones (all_milestones : List TaggedMilestone) : List TaggedMilestone :=
  dedup_aux [] all_milestones

/-- `_extract_milestones_from_all_sources`: run the block pass; when the
text pool is nonempty and the block pass yielded fewer than 5 milestones,
run one more call on the pool without provenance; dedup the concatenation.
The second component is the ordered trace of completion calls issued. -/
def extract_milestones_from_all_sources
    (json_loads : String → Option (List RawMilestone))
    (complete : String → Except Unit String)
    (milestone_tables : List TableBlock) (milestone_text : String) :
    List TaggedMilestone × List (Option TableBlock × String) :=
  let all_milestones := block_pass_milestones json_loads complete milestone_tables
  let block_calls := block_pass_calls json_loads complete milestone_tables
  if milestone_text ≠ "" ∧ all_milestones.length < 5 then
    let text_run := process_milestone_content json_loads complete milestone_text none
    (dedup_milestones (all_milestones ++ text_run.1), block_calls ++ text_run.2)
  else
    (dedup_milestones all_milestones, block_calls)

/-- How many calls of a trace are text-pool calls (no block provenance). -/
def text_pool_calls (calls : List (Option TableBlock × String)) : Nat :=
  (calls.filter (fun c => c.1.isNone)).length

/-- The prompt template of `_extract_deliverables_from_text`. -/
def deliverables_prompt (deliverables_text : String) : String :=
  "\n        Analyze the following document content and extract ALL deliverable information in any format. Return ONLY a valid JSON array.\n\n        Document Content:\n        "
  ++ deliverables_text ++
  "  \n\n        Find any deliverable, output, artifact, or work product mentioned. For each item, create a JSON object:\n        \x7b\n            \"name\": \"deliverable name\",\n            \"description\": \"description found\",\n            \"delivery_date\": \"any date found or null\",\n            \"related_milestone\": \"related phase/milestone or null\"\n        \x7d\n\n        Instructions:\n        - Look for ANY format: bullet points, numbered lists, tables, paragraphs\n        - Extract items that represent deliverables, outputs, artifacts, reports, systems\n        - Find associated dates and related milestones\n        - Use EXACT values from the content\n        - Return ONLY the JSON array, no other text\n        "

/-- The text-gathering loop of `_extract_deliverables_from_text`: the page
loop is not wrapped in any handler, so a raise from `extract_text()`
propagates; pages whose text contains `deliverables` or `phase`
(lowercased) are concatenated with a trailing newline each. -/
def deliverables_text_pool (doc : Document) : Except Unit String := do
  let texts ← doc.mapM Page.extractText
  pure (str_concat (texts.map (fun text =>
    if text ≠ "" ∧ (str_contains (py_lower text) "deliverables" ∨ str_contains (py_lower text) "phase") then
      text ++ "\n"
    else "")))

/-- `_extract_deliverables_from_text`: one completion call on the pooled
text; an empty pool returns `[]` without calling; completion raises and
parse failures are caught and yield `[]`. -/
def extract_deliverables_from_text
    (json_loads_d : String → Option (List Deliverable))
    (complete : String → Except Unit String)
    (doc : Document) : Except Unit (List Deliverable) := do
  let deliverables_text ← deliverables_text_pool doc
  if deliverables_text = "" then pure []
  else
    match complete (deliverables_prompt deliverables_text) with
    | .error _ => pure []
    | .ok response =>
        match json_loads_d (clean_completion_text response) with
        | none => pure []
        | some deliverables => pure deliverables

/-- The header heuristic of `_convert_pdf_to_markdown`:
`line.isupper() and len(line) < 100`.  Python `isupper` holds iff the
string has at least one cased character and no lowercase one (ASCII
reading). -/
def is_upper_header (line : String) : Bool :=
  (line.data.any (fun c => c.isAlpha)) && (line.data.all (fun c => ¬ c.isLower))
    && decide (py_len line < 100)

/-- Markdown cell rendering of `_convert_pdf_to_markdown`:
`str(cell) if cell else ""`. -/
def markdown_cell (cell : Cell) : String :=
  cell.getD ""

/-- The markdown lines for one extracted table: emitted only for grids
with more than one row; the first row is the header, data rows are kept
when nonempty with at least one truthy cell. -/
def table_markdown_lines (table_idx : Nat) (table : Table) : List String :=
  match table with
  | [] => []
  | headers :: rest =>
      if 1 < table.length then
        ["#### Table " ++ toString (table_idx + 1), "",
         "| " ++ join_sep " | " (headers.map markdown_cell) ++ " |",
         "|" ++ join_sep "|" (headers.map (fun _ => "---")) ++ "|"]
        ++ (rest.filterMap (fun row =>
              if ¬ row.isEmpty ∧ row.any (fun cell => markdown_cell cell ≠ "") then
                some ("| " ++ join_sep " | " (row.map markdown_cell) ++ " |")
              else none))
        ++ [""]
      else []

/-- The markdown lines for one page of `_convert_pdf_to_markdown`.  The
page operations are called without any handler, so a raise propagates. -/
def page_markdown_lines (pdf_stem : String) (page_num : Nat) (pg : Page) :
    Except Unit (List String) := do
  let header := if page_num = 0 then ["# SOW Document - " ++ pdf_stem, ""] else []
  let text ← pg.extractText
  let text_lines :=
    if text ≠ "" then
      ((py_split_char '\n' text).filterMap (fun line =>
        if py_strip line ≠ "" then
          some (if is_upper_header (py_strip line) then ["### " ++ py_strip line, ""]
                else [py_strip line, ""])
        else none)).flatten
    else []
  let tables ← pg.extractTables
  let table_lines := (tables.enum.map (fun p => table_markdown_lines p.1 p.2)).flatten
  pure (header ++ ["## Page " ++ toString (page_num + 1), ""]
        ++ text_lines ++ table_lines ++ ["---", ""])

/-- `_convert_pdf_to_markdown`: page sections joined by newlines; the
first raising page aborts the conversion (nothing in this function catches
it). -/
def convert_pdf_to_markdown (doc : Document) (pdf_stem : String) : Except Unit String := do
  let sections ← doc.enum.mapM (fun p => page_markdown_lines pdf_stem p.1 p.2)
  pure (join_sep "\n" sections.flatten)

/-- The filesystem write of `_save_markdown` before its handler:
`write_fails` stands for a permissions or disk failure. -/
def save_markdown_attempt (write_fails : Bool) : Except Unit Unit :=
  if write_fails then .error () else .ok ()

/-- `_save_markdown`: the whole body is wrapped in a handler catching
every exception and only logging it, so a write failure is swallowed and
the caller observes nothing. -/
def save_markdown (write_fails : Bool) : Unit :=
  match save_markdown_attempt write_fails with
  | .ok _ => ()
  | .error _ => ()

/-- `extract_from_pdf`: the full pipeline.  `json_loads` and
`json_loads_d` model `json.loads` for the two response shapes, `complete`
the completion client, `write_fails` whether the markdown write fails. -/
def extract_from_pdf
    (json_loads : String → Option (List RawMilestone))
    (json_loads_d : String → Option (List Deliverable))
    (complete : String → Except Unit String)
    (doc : Document) (pdf_stem : String) (write_fails : Bool) :
    Except Unit ExtractionResult :=
  let tables_data := extract_tables_from_pdf doc
  match convert_pdf_to_markdown doc pdf_stem with
  | .error e => .error e
  | .ok markdown_content =>
      let _ := save_markdown write_fails
      let _ := markdown_content
      let milestone_tables := identify_milestone_tables tables_data
      let milestone_text := extract_milestone_text doc
      let milestones := (extract_milestones_from_all_sources json_loads complete
        milestone_tables milestone_text).1
      match extract_deliverables_from_text json_loads_d complete doc with
      | .error e => .error e
      | .ok deliverables =>
          .ok {
            milestones := milestones,
            deliverables := deliverables,
            metadata := {
              processing_confidence := conf_processing,
              tables_found := tables_data.length,
              milestone_tables_identified := milestone_tables.length,
              markdown_saved := true } }

/-- Modelled from the spec: the same pipeline with the markdown rendering
side channel disabled (spec section 2 calls the rendering optional and
section 4.6 an audit side channel that must never fail the extraction
request); the render and save steps are skipped, everything else is the
extraction of `extract_from_pdf` unchanged.  The source has no such flag;
this definition is the comparison point the refinement claim about the
side channel asks for. -/
def extract_from_pdf_no_markdown
    (json_loads : String → Option (List RawMilestone))
    (json_loads_d : String → Option (List Deliverable))
    (complete : String → Except Unit String)
    (doc : Document) (pdf_stem : String) (write_fails : Bool) :
    Except Unit ExtractionResult :=
  let tables_data := extract_tables_from_pdf doc
  let _ := pdf_stem
  let _ := write_fails
  let milestone_tables := identify_milestone_tables tables_data
  let milestone_text := extract_milestone_text doc
  let milestones := (extract_milestones_from_all_sources json_loads complete
    milestone_tables milestone_text).1
  match extract_deliverables_from_text json_loads_d complete doc with
  | .error e => .error e
  | .ok deliverables =>
      .ok {
        milestones := milestones,
        deliverables := deliverables,
        metadata := {
          processing_confidence := conf_processing,
          tables_found := tables_data.length,
          milestone_tables_identified := milestone_tables.length,
          markdown_saved := true } }

/-- Modelled from the spec (section 4.5): walk the candidate list keeping
an entry iff its key differs from the key of every earlier entry of the
input (kept or not), preserving order; `earlier` accumulates all entries
already walked. -/
def spec_keep (earlier : List TaggedMilestone) : List TaggedMilestone → List TaggedMilestone
  | [] => []
  | m :: rest =>
      if earlier.all (fun m2 => decide (mkey m2 ≠ mkey m)) then
        m :: spec_keep (earlier ++ [m]) rest
      else spec_keep (earlier ++ [m]) rest

/-- Modelled from the spec (section 4.5): the deduplication described by
its words — remove exactly the entries whose composite (name, due_date)
key equals the key of an earlier entry, keep the first-seen entry for each
key, preserve insertion order. -/
def spec_first_occurrences (ms : List TaggedMilestone) : List TaggedMilestone :=
  spec_keep [] ms

theorem dedup_aux_subset : ∀ (ms : List TaggedMilestone) (seen : List (JStr × JStr))
    (m : TaggedMilestone), m ∈ dedup_aux seen ms → m ∈ ms
  | [], _, _, h => by simp [dedup_aux] at h
  | m0 :: rest, seen, m, h => by
      unfold dedup_aux at h
      by_cases hk : mkey m0 ∈ seen
      · rw [if_pos hk] at h
        exact List.mem_cons_of_mem _ (dedup_aux_subset rest seen m h)
      · rw [if_neg hk] at h
        rcases List.mem_cons.mp h with h | h
        · exact h ▸ List.mem_cons_self _ _
        · exact List.mem_cons_of_mem _ (dedup_aux_subset rest _ m h)

theorem dedup_aux_not_mem_seen : ∀ (ms : List TaggedMilestone) (seen : List (JStr × JStr))
    (m : TaggedMilestone), m ∈ dedup_aux seen ms → mkey m ∉ seen
  | [], _, _, h => by simp [dedup_aux] at h
  | m0 :: rest, seen, m, h => by
      unfold dedup_aux at h
      by_cases hk : mkey m0 ∈ seen
      · rw [if_pos hk] at h
        exact dedup_aux_not_mem_seen rest seen m h
      · rw [if_neg hk] at h
        rcases List.mem_cons.mp h with h | h
        · exact h ▸ hk
        · intro hs
          exact dedup_aux_not_mem_seen rest _ m h (List.mem_cons_of_mem _ hs)

theorem dedup_aux_pairwise : ∀ (ms : List TaggedMilestone) (seen : List (JStr × JStr)),
    (dedup_aux seen ms).Pairwise (fun a b => mkey a ≠ mkey b)
  | [], _ => by simp [dedup_aux]
  | m0 :: rest, seen => by
      unfold dedup_aux
      by_cases hk : mkey m0 ∈ seen
      · rw [if_pos hk]
        exact dedup_aux_pairwise rest seen
      · rw [if_neg hk]
        refine List.Pairwise.cons ?_ (dedup_aux_pairwise rest (mkey m0 :: seen))
        intro b hb heq
        apply dedup_aux_not_mem_seen rest (mkey m0 :: seen) b hb
        rw [← heq]
        exact List.mem_cons_self _ _

theorem dedup_aux_fixed : ∀ (ms : List TaggedMilestone) (seen : List (JStr × JStr)),
    ms.Pairwise (fun a b => mkey a ≠ mkey b) → (∀ m ∈ ms, mkey m ∉ seen) →
    dedup_aux seen ms = ms
  | [], _, _, _ => rfl
  | m0 :: rest, seen, hp, hd => by
      unfold dedup_aux
      rw [if_neg (hd m0 (List.mem_cons_self _ _))]
      have hp' := List.pairwise_cons.mp hp
      congr 1
      apply dedup_aux_fixed rest (mkey m0 :: seen) hp'.2
      intro m hm
      rw [List.mem_cons]
      rintro (he | hs)
      · exact hp'.1 m hm he.symm
      · exact hd m (List.mem_cons_of_mem _ hm) hs

theorem dedup_aux_eq_spec_keep : ∀ (ms : List TaggedMilestone) (seen : List (JStr × JStr))
    (earlier : List TaggedMilestone),
    (∀ k, k ∈ seen ↔ ∃ m2 ∈ earlier, mkey m2 = k) →
    dedup_aux seen ms = spec_keep earlier ms
  | [], _, _, _ => rfl
  | m0 :: rest, seen, earlier, h => by
      unfold dedup_aux spec_keep
      by_cases hk : mkey m0 ∈ seen
      · rw [if_pos hk]
        have hall : ¬ (earlier.all (fun m2 => decide (mkey m2 ≠ mkey m0)) = true) := by
          rw [List.all_eq_true]
          intro hall
          obtain ⟨m2, hm2, hkey⟩ := (h (mkey m0)).mp hk
          have := hall m2 hm2
          rw [decide_eq_true_iff] at this
          exact this hkey
        rw [if_neg hall]
        apply dedup_aux_eq_spec_keep rest seen (earlier ++ [m0])
        intro k
        rw [h k]
        simp only [List.mem_append, List.mem_singleton]
        constructor
        · rintro ⟨m2, hm2, he⟩
          exact ⟨m2, Or.inl hm2, he⟩
        · rintro ⟨m2, hm2 | rfl, he⟩
          · exact ⟨m2, hm2, he⟩
          · exact (h k).mp (he ▸ hk)
      · rw [if_neg hk]
        have hall : earlier.all (fun m2 => decide (mkey m2 ≠ mkey m0)) = true := by
          rw [List.all_eq_true]
          intro m2 hm2
          rw [decide_eq_true_iff]
          intro he
          exact hk ((h (mkey m0)).mpr ⟨m2, hm2, he⟩)
        rw [if_pos hall]
        congr 1
        apply dedup_aux_eq_spec_keep rest (mkey m0 :: seen) (earlier ++ [m0])
        intro k
        simp only [List.mem_cons, List.mem_append, List.not_mem_nil, or_false, h k]
        constructor
        · rintro (rfl | ⟨m2, hm2, he⟩)
          · exact ⟨m0, Or.inr rfl, rfl⟩
          · exact ⟨m2, Or.inl hm2, he⟩
        · rintro ⟨m2, hm2 | rfl, he⟩
          · exact Or.inr ⟨m2, hm2, he⟩
          · exact Or.inl he.symm

/-! Concrete capability instances and pages used by the closed witness and
counterexample theorems below. -/

/-- A JSON contract that fails on every input (every response is treated
as unparseable). -/
def jl0 : String → Option (List RawMilestone) := fun _ => none

/-- A deliverables JSON contract that fails on every input. -/
def jld0 : String → Option (List Deliverable) := fun _ => none

/-- A completion stub answering `"[]"` to every prompt. -/
def svc0 : String → Except Unit String := fun _ => .ok "[]"

/-- A completion stub answering `"not json"` to every prompt. -/
def svc_notjson : String → Except Unit String := fun _ => .ok "not json"

/-- A sample parsed milestone object. -/
def m0 : RawMilestone :=
  { name := some (.str "Kickoff"), description := some (.str "Kickoff"),
    due_date := some (.str "2024-01-15"), payment_amount := some (.str "$5000") }

/-- A JSON contract that parses every response as the one-element array
`[m0]`. -/
def jl1 : String → Option (List RawMilestone) := fun _ => some [m0]

/-- A page on which `extract_tables()` raises while `extract_text()`
succeeds with keyword-free text. -/
def pgBad : Page :=
  { extractText := .ok "hello world", extractTables := .error (), extractTextRaw := .ok "" }

/-- A page with no tables whose text has two table-like lines. -/
def pgText : Page :=
  { extractText := .ok "Milestone payment date alpha\nphase amount $ beta",
    extractTables := .ok [], extractTextRaw := .ok "" }

/-- A page returning one single-row grid, with table-like page text. -/
def pg10 : Page :=
  { extractText := .ok "Milestone payment date alpha\nphase amount $ beta",
    extractTables := .ok [[[some "a"]]], extractTextRaw := .ok "" }

/-! Shared helper lemmas. -/

theorem conf_text_eq : conf_text = 4/5 := by
  unfold conf_text
  rw [Rat.mk'_eq_divInt]
  norm_num [Rat.divInt_eq_div]

theorem process_calls_sources (json_loads : String → Option (List RawMilestone))
    (complete : String → Except Unit String) (content_text : String)
    (source_data : Option TableBlock) :
    (process_milestone_content json_loads complete content_text source_data).2 =
      if content_text = "" then [] else [(source_data, content_text)] := by
  unfold process_milestone_content
  by_cases h : content_text = ""
  · rw [if_pos h, if_pos h]
  · rw [if_neg h, if_neg h]
    cases complete (milestone_prompt content_text) with
    | error e => rfl
    | ok resp =>
        dsimp only
        cases json_loads (clean_completion_text resp) with
        | none => rfl
        | some ms => rfl

theorem text_pool_calls_append (a b : List (Option TableBlock × String)) :
    text_pool_calls (a ++ b) = text_pool_calls a + text_pool_calls b := by
  unfold text_pool_calls
  rw [List.filter_append, List.length_append]

theorem block_pass_calls_no_text_pool (jl : String → Option (List RawMilestone))
    (c : String → Except Unit String) :
    ∀ (tables : List TableBlock), text_pool_calls (block_pass_calls jl c tables) = 0
  | [] => rfl
  | td :: rest => by
      have h2 := block_pass_calls_no_text_pool jl c rest
      unfold block_pass_calls at h2 ⊢
      simp only [List.map_cons, List.flatten_cons]
      rw [text_pool_calls_append, h2, process_calls_sources]
      by_cases h : td.text_content = ""
      · rw [if_pos h]
        rfl
      · rw [if_neg h]
        rfl

theorem process_milestone_provenance (jl : String → Option (List RawMilestone))
    (c : String → Except Unit String) (content : String) (sd : Option TableBlock) :
    ∀ m ∈ (process_milestone_content jl c content sd).1, m.source_table = tag_provenance sd := by
  intro m hm
  unfold process_milestone_content at hm
  by_cases h : content = ""
  · rw [if_pos h] at hm
    exact absurd hm (List.not_mem_nil m)
  · rw [if_neg h] at hm
    dsimp only at hm
    cases hc : c (milestone_prompt content) with
    | error e =>
        rw [hc] at hm
        exact absurd hm (List.not_mem_nil m)
    | ok resp =>
        rw [hc] at hm
        dsimp only at hm
        cases hj : jl (clean_completion_text resp) with
        | none =>
            rw [hj] at hm
            exact absurd hm (List.not_mem_nil m)
        | some ms0 =>
            rw [hj] at hm
            dsimp only at hm
            obtain ⟨raw, hraw, rfl⟩ := List.mem_map.mp hm
            rfl

theorem extract_all_sources_pairwise (jl : String → Option (List RawMilestone))
    (c : String → Except Unit String) (tables : List TableBlock) (text : String) :
    (extract_milestones_from_all_sources jl c tables text).1.Pairwise
      (fun a b => mkey a ≠ mkey b) := by
  unfold extract_milestones_from_all_sources
  dsimp only
  split
  · exact dedup_aux_pairwise _ _
  · exact dedup_aux_pairwise _ _

/-! The claim theorems. -/

/-- Claim C1, amended: the text-pool completion call is issued exactly
once iff the block pass yielded fewer than 5 milestones AND the
concatenated page-text pool is nonempty; it is never issued when the block
pass yielded 5 or more milestones, and — contrary to the claim as stated —
also never issued when the pool is empty, however few milestones the
blocks yielded. -/
theorem c1_text_pool_call_gate (jl : String → Option (List RawMilestone))
    (c : String → Except Unit String) (tables : List TableBlock) (text : String) :
    text_pool_calls (extract_milestones_from_all_sources jl c tables text).2 =
      if text ≠ "" ∧ (block_pass_milestones jl c tables).length < 5 then 1 else 0 := by
  unfold extract_milestones_from_all_sources
  dsimp only
  by_cases h : text ≠ "" ∧ (block_pass_milestones jl c tables).length < 5
  · rw [if_pos h, if_pos h]
    dsimp only
    rw [text_pool_calls_append, block_pass_calls_no_text_pool, process_calls_sources]
    rw [if_neg h.1]
    rfl
  · rw [if_neg h, if_neg h]
    exact block_pass_calls_no_text_pool jl c tables

/-- Claim C1, counterexample to the claim as stated: a run whose block
pass yields 0 milestones (fewer than 5) but whose page-text pool is empty
issues no text-pool completion call at all, not exactly one. -/
theorem c1_counterexample_empty_pool_no_text_call :
    (block_pass_milestones jl0 svc0 []).length < 5 ∧
    text_pool_calls (extract_milestones_from_all_sources jl0 svc0 [] "").2 = 0 :=
  ⟨by decide, by decide⟩

/-- Claim C2: the deduplication step removes exactly the entries whose
(name, due_date) key — compared by exact equality of the stored values,
with no normalization — equals the key of an earlier entry; the first-seen
entry for each key is kept and insertion order is preserved.  Stated as
equality with `spec_first_occurrences`, the verbatim transcription of the
spec wording. -/
theorem c2_dedup_keeps_first_occurrences (ms : List TaggedMilestone) :
    dedup_milestones ms = spec_first_occurrences ms :=
  dedup_aux_eq_spec_keep ms [] [] (by simp)

/-- Claim C3: every milestone produced by a completion call carries the
call-site provenance — page and block index with confidence 1 for a
table-backed call, the literal markers with confidence 4/5 (the float 0.8)
for the page-text-pool call — and hence every milestone of a run result
has confidence 1 or 4/5. -/
theorem c3_provenance_completeness (jl : String → Option (List RawMilestone))
    (c : String → Except Unit String) (content : String) (sd : Option TableBlock)
    (tables : List TableBlock) (text : String) :
    (∀ m ∈ (process_milestone_content jl c content sd).1,
        m.source_table = match sd with
          | some b => { page := SourceRef.idx b.page, table_index := SourceRef.idx b.table_index,
                        confidence := 1 }
          | none => { page := SourceRef.tag "text_content", table_index := SourceRef.tag "text",
                      confidence := 4/5 }) ∧
    (∀ m ∈ (extract_milestones_from_all_sources jl c tables text).1,
        m.source_table.confidence = 1 ∨ m.source_table.confidence = 4/5) := by
  constructor
  · intro m hm
    rw [process_milestone_provenance jl c content sd m hm]
    cases sd with
    | some b => simp [tag_provenance, conf_table]
    | none => simp [tag_provenance, conf_text_eq]
  · intro m hm
    unfold extract_milestones_from_all_sources at hm
    dsimp only at hm
    split at hm
    · have hmem := dedup_aux_subset _ [] m hm
      rcases List.mem_append.mp hmem with hb | ht2
      · unfold block_pass_milestones at hb
        rw [List.mem_flatten] at hb
        obtain ⟨l, hl, hml⟩ := hb
        rw [List.mem_map] at hl
        obtain ⟨td, htd, rfl⟩ := hl
        left
        rw [process_milestone_provenance _ _ _ _ m hml]
        simp [tag_provenance, conf_table]
      · right
        rw [process_milestone_provenance _ _ _ _ m ht2]
        simp [tag_provenance, conf_text_eq]
    · have hmem := dedup_aux_subset _ [] m hm
      unfold block_pass_milestones at hmem
      rw [List.mem_flatten] at hmem
      obtain ⟨l, hl, hml⟩ := hmem
      rw [List.mem_map] at hl
      obtain ⟨td, htd, rfl⟩ := hl
      left
      rw [process_milestone_provenance _ _ _ _ m hml]
      simp [tag_provenance, conf_table]

/-- Claim C3 witness: a concrete page-text-pool call tags its milestone
with the text-content markers and confidence 4/5. -/
theorem c3_provenance_completeness_witness :
    ({ data := m0, source_table := tag_provenance none } : TaggedMilestone).source_table =
      { page := SourceRef.tag "text_content", table_index := SourceRef.tag "text",
        confidence := 4/5 } :=
  (c3_provenance_completeness jl1 svc0 "Phase 1" none [] "").1
    { data := m0, source_table := tag_provenance none } (by decide)

/-- Claim C4, counterexample to the claim as stated: on a one-page
document whose `extract_tables()` raises, the markdown rendering step
raises out of `extract_from_pdf` and the whole run fails, while the same
run with rendering disabled succeeds — a rendering failure is neither
swallowed nor result-preserving. -/
theorem c4_counterexample_render_failure_fails_run :
    extract_from_pdf jl0 jld0 svc0 [pgBad] "doc" false = Except.error () ∧
    extract_from_pdf_no_markdown jl0 jld0 svc0 [pgBad] "doc" false =
      Except.ok ⟨[], [], ⟨conf_processing, 1, 0, true⟩⟩ :=
  ⟨by decide, by decide⟩

/-- Claim C4, amended: a failure while WRITING the markdown transcript is
swallowed and never changes the extraction result (the result is
independent of whether the write fails), and whenever the markdown
RENDERING succeeds the run returns exactly what it would return with
rendering disabled; a failure during rendering, however, propagates and
fails the run (see the counterexample). -/
theorem c4_write_failure_swallowed
    (json_loads : String → Option (List RawMilestone))
    (json_loads_d : String → Option (List Deliverable))
    (complete : String → Except Unit String)
    (doc : Document) (pdf_stem : String) (md : String)
    (hmd : convert_pdf_to_markdown doc pdf_stem = Except.ok md) :
    (∀ w1 w2 : Bool,
        extract_from_pdf json_loads json_loads_d complete doc pdf_stem w1 =
        extract_from_pdf json_loads json_loads_d complete doc pdf_stem w2) ∧
    (∀ w : Bool,
        extract_from_pdf json_loads json_loads_d complete doc pdf_stem w =
        extract_from_pdf_no_markdown json_loads json_loads_d complete doc pdf_stem w) := by
  constructor
  · intro w1 w2
    rfl
  · intro w
    unfold extract_from_pdf extract_from_pdf_no_markdown
    rw [hmd]

/-- Claim C4 witness: on the empty document the markdown conversion
succeeds and the full pipeline with a failing write equals the pipeline
with rendering disabled. -/
theorem c4_write_failure_swallowed_witness :
    extract_from_pdf jl0 jld0 svc0 [] "d" true =
      extract_from_pdf_no_markdown jl0 jld0 svc0 [] "d" true :=
  (c4_write_failure_swallowed jl0 jld0 svc0 [] "d" "" rfl).2 true

/-- Claim C5: when table extraction succeeds on a page, the segmenter
emits one table-kind block per grid with at least 2 rows (discarding
shorter grids); when the returned table list is empty it emits one
text-pattern block covering the whole page text iff at least 2 lines of
the page have at least 3 whitespace-separated tokens and contain a
milestone indicator as a case-insensitive substring. -/
theorem c5_segmenter_block_emission (page_num : Nat) (pg : Page) (tables : List Table)
    (text : String)
    (ht : pg.extractTables = Except.ok tables)
    (htx : pg.extractText = Except.ok text) :
    (tables ≠ [] → process_page page_num pg =
        tables.enum.filterMap (fun p =>
          if 2 ≤ p.2.length then
            some { page := page_num, table_index := p.1, data := some p.2,
                   text_content := table_to_text p.2, btype := none }
          else none)) ∧
    (tables = [] → process_page page_num pg =
        if 2 ≤ ((py_split_char '\n' text).countP (fun line =>
              decide (3 ≤ whitespace_token_count (py_strip (py_lower line)))
                && table_indicators.any (fun ind => str_contains (py_strip (py_lower line)) ind)))
        then [{ page := page_num, table_index := 0, data := none,
                text_content := text, btype := some "text_table" }]
        else []) := by
  have hlk : ∀ t : String, looks_like_table_text t =
      decide (2 ≤ ((py_split_char '\n' t).countP (fun line =>
        decide (3 ≤ whitespace_token_count (py_strip (py_lower line)))
          && table_indicators.any (fun ind => str_contains (py_strip (py_lower line)) ind)))) :=
    fun _ => rfl
  constructor
  · intro hne
    unfold process_page
    rw [ht]
    cases tables with
    | nil => exact absurd rfl hne
    | cons a as =>
        dsimp only
        rw [if_neg (by simp)]
        rfl
  · intro he
    subst he
    unfold process_page
    rw [ht]
    dsimp only
    have h0 : ([] : List Table).isEmpty = true := rfl
    rw [if_pos h0, htx]
    dsimp only
    by_cases hN : 2 ≤ ((py_split_char '\n' text).countP (fun line =>
        decide (3 ≤ whitespace_token_count (py_strip (py_lower line)))
          && table_indicators.any (fun ind => str_contains (py_strip (py_lower line)) ind)))
    · have htext : text ≠ "" := by
        intro h0t
        subst h0t
        revert hN
        decide
      rw [if_pos ⟨htext, by rw [hlk]; exact decide_eq_true hN⟩, if_pos hN]
    · rw [if_neg ?hc, if_neg hN]
      case hc =>
        intro hand
        apply hN
        have h2 := hand.2
        rw [hlk] at h2
        exact of_decide_eq_true h2

/-- Claim C5 witness: a concrete page with no tables and two table-like
lines yields exactly one text-pattern block covering the page text. -/
theorem c5_segmenter_block_emission_witness :
    process_page 0 pgText =
      [{ page := 0, table_index := 0, data := none,
         text_content := "Milestone payment date alpha\nphase amount $ beta",
         btype := some "text_table" }] := by
  have h := (c5_segmenter_block_emission 0 pgText []
    "Milestone payment date alpha\nphase amount $ beta" rfl rfl).2 rfl
  rw [h]
  decide

/-- Claim C6: the relevance classifier keeps a block — sends it to the
extraction engine — iff its case-insensitive substring hit count against
the eight-word milestone vocabulary is at least 3. -/
theorem c6_relevance_threshold (tables_data : List TableBlock) (td : TableBlock) :
    td ∈ identify_milestone_tables tables_data ↔
      td ∈ tables_data ∧
        3 ≤ (["milestone", "phase", "payment", "due date", "amount",
              "percentage", "description", "duration"].countP
                (fun keyword => str_contains (py_lower td.text_content) keyword)) := by
  unfold identify_milestone_tables keyword_hits milestone_keywords
  rw [List.mem_filter]
  simp [decide_eq_true_iff]

/-- Claim C7: when the completion response, after cleaning, is not parsed
as a JSON array by the JSON contract, the per-block extraction returns the
empty list (and, the model being total, nothing escapes the block
boundary). -/
theorem c7_malformed_completion_tolerance
    (json_loads : String → Option (List RawMilestone))
    (complete : String → Except Unit String)
    (content_text : String) (source_data : Option TableBlock) (response : String)
    (hc : complete (milestone_prompt content_text) = Except.ok response)
    (hp : json_loads (clean_completion_text response) = none) :
    (process_milestone_content json_loads complete content_text source_data).1 = [] := by
  unfold process_milestone_content
  by_cases h : content_text = ""
  · rw [if_pos h]
  · rw [if_neg h]
    dsimp only
    rw [hc]
    dsimp only
    rw [hp]

/-- Claim C7 witness: the completion response `"not json"` (which the
failing JSON contract rejects after cleaning) yields zero milestones from
that call. -/
theorem c7_malformed_completion_tolerance_witness :
    (process_milestone_content jl0 svc_notjson "Phase 1 due 2024-01-15" none).1 = [] :=
  c7_malformed_completion_tolerance jl0 svc_notjson "Phase 1 due 2024-01-15" none
    "not json" rfl rfl

/-- Claim C8: the deduplication step is idempotent — applying it to its
own output returns that output unchanged. -/
theorem c8_dedup_idempotent (ms : List TaggedMilestone) :
    dedup_milestones (dedup_milestones ms) = dedup_milestones ms :=
  dedup_aux_fixed (dedup_aux [] ms) [] (dedup_aux_pairwise ms [])
    (fun m _ => List.not_mem_nil (mkey m))

/-- Claim C9: in every result envelope produced by a successful run, no
two distinct milestones share an identical (name, due_date) key. -/
theorem c9_result_key_uniqueness
    (json_loads : String → Option (List RawMilestone))
    (json_loads_d : String → Option (List Deliverable))
    (complete : String → Except Unit String)
    (doc : Document) (pdf_stem : String) (write_fails : Bool) (env : ExtractionResult)
    (h : extract_from_pdf json_loads json_loads_d complete doc pdf_stem write_fails =
      Except.ok env) :
    env.milestones.Pairwise (fun a b => mkey a ≠ mkey b) := by
  unfold extract_from_pdf at h
  cases hmd : convert_pdf_to_markdown doc pdf_stem with
  | error e =>
      rw [hmd] at h
      exact absurd h (by simp)
  | ok md =>
      rw [hmd] at h
      dsimp only at h
      cases hdel : extract_deliverables_from_text json_loads_d complete doc with
      | error e =>
          rw [hdel] at h
          exact absurd h (by simp)
      | ok ds =>
          rw [hdel] at h
          dsimp only at h
          have henv := Except.ok.inj h
          rw [← henv]
          exact extract_all_sources_pairwise json_loads complete _ _

/-- Claim C9 witness: a concrete successful run (empty document) has
pairwise-distinct milestone keys. -/
theorem c9_result_key_uniqueness_witness :
    ({ milestones := [], deliverables := [],
       metadata := { processing_confidence := conf_processing, tables_found := 0,
                     milestone_tables_identified := 0, markdown_saved := true } } :
      ExtractionResult).milestones.Pairwise (fun a b => mkey a ≠ mkey b) :=
  c9_result_key_uniqueness jl0 jld0 svc0 [] "d" false
    { milestones := [], deliverables := [],
      metadata := { processing_confidence := conf_processing, tables_found := 0,
                    milestone_tables_identified := 0, markdown_saved := true } } rfl

/-- Claim C10: when table extraction returns a nonempty list of grids all
shorter than 2 rows, the segmenter emits no block for the page and never
attempts the text-pattern heuristic, whatever the page text contains —
the fallback is gated on the raw table list being empty. -/
theorem c10_short_grids_suppress_text_fallback (page_num : Nat) (pg : Page)
    (tables : List Table)
    (ht : pg.extractTables = Except.ok tables) (hne : tables ≠ [])
    (hshort : ∀ t ∈ tables, t.length < 2) :
    process_page page_num pg = [] := by
  unfold process_page
  rw [ht]
  cases tables with
  | nil => exact absurd rfl hne
  | cons a as =>
      dsimp only
      rw [if_neg (by simp)]
      rw [List.filterMap_eq_nil_iff]
      intro p hp
      rw [if_neg]
      intro hlen
      have hget : (a :: as)[p.1]? = some p.2 := List.mem_enum_iff_getElem?.mp hp
      have hmem : p.2 ∈ a :: as := List.getElem?_mem hget
      have := hshort p.2 hmem
      omega

/-- Claim C10 witness: a page returning one single-row grid emits no
block, although its text has two table-like lines. -/
theorem c10_short_grids_suppress_text_fallback_witness :
    looks_like_table_text "Milestone payment date alpha\nphase amount $ beta" = true ∧
    process_page 0 pg10 = [] :=
  ⟨by decide, c10_short_grids_suppress_text_fallback 0 pg10 [[[some "a"]]] rfl
    (by decide) (by decide)⟩

end SowExtractor
